import Mathlib

/-!
Shallow embedding of the budget-reconciliation core of the personal-finance
backend (`src/budget/services.py`, `src/kafka/consumer.py`,
`src/kafka/producer.py`, `src/transaction/services.py`, `src/models.py`).

Modelling conventions:
* SQLAlchemy tables become lists of records inside a `Store`; `.first()` is
  `List.find?` in table (insertion) order; `db.add` appends at the end.
* `Float` money columns become `ℚ` (exact arithmetic; the claims are about
  accumulation logic, not rounding).  `DateTime` columns become `Int`.
* Nullable integer columns become `Option Int`.  Python truthiness of an
  integer (`if x:`) is `x ≠ 0`; of a nullable integer it is
  `x is not None and x != 0`.
* Python exceptions become `Except` errors with named constructors
  (`unboundLocal` for `UnboundLocalError`, `zeroDivision` for
  `ZeroDivisionError` raised by `/` on a zero divisor).
-/

namespace PFMS

/-- Row of the `transactions` table (`models.py`, class `Transaction`). -/
structure Transaction where
  id : Int
  user_id : Int
  transaction_type_id : Int
  transaction_type_category_id : Int
  transaction_type_subcategory_id : Option Int
  amount : ℚ
  description : String
  transaction_date : Int
deriving DecidableEq

/-- Row of the `budgets` table (`models.py`, class `Budget`). -/
structure Budget where
  id : Int
  user_id : Int
  transaction_type_category_id : Int
  transaction_type_subcategory_id : Option Int
  amount : ℚ
  start_date : Int
  end_date : Int
deriving DecidableEq

/-- Row of the `budget_expenses` table (`models.py`, class `BudgetExpense`). -/
structure BudgetExpense where
  id : Int
  budget_id : Int
  transaction_type_category_id : Int
  transaction_type_subcategory_id : Option Int
  amount_spent : ℚ
deriving DecidableEq

/-- The database: one list per table, in insertion order, plus the
autoincrement counters for the primary keys the services return. -/
structure Store where
  budgets : List Budget
  budget_expenses : List BudgetExpense
  transactions : List Transaction
  expense_categories : List (Int × String)
  expense_subcategories : List (Int × String)
  next_expense_id : Int
  next_transaction_id : Int
deriving DecidableEq

/-- Python truthiness of an `int` value: `if x:` is `x ≠ 0`. -/
def intTruthy (x : Int) : Bool := x != 0

/-- Python truthiness of a nullable `int` column value. -/
def optTruthy : Option Int → Bool
  | none => false
  | some v => v != 0

/-- The row filter of `check_budget` (`budget/services.py` lines 167-177):
same owner, same category id, and `start_date <= date` and
`end_date >= date`. -/
def matchesBudget (b : Budget) (t : Transaction) : Bool :=
  b.user_id == t.user_id &&
  b.transaction_type_category_id == t.transaction_type_category_id &&
  decide (b.start_date ≤ t.transaction_date) &&
  decide (b.end_date ≥ t.transaction_date)

/-- `check_budget` (`budget/services.py`): first budget row matching the
transaction's owner, category and date range. -/
def check_budget (t : Transaction) (db : Store) : Option Budget :=
  db.budgets.find? (fun b => matchesBudget b t)

/-- The filters of `check_budget_expense` that actually constrain the
`budget_expenses` table: `BudgetExpense.budget_id == budget.id` always, and
`BudgetExpense.transaction_type_category_id == budget.transaction_type_category_id`
when the budget's category id is truthy. -/
def expenseFilter (budget : Budget) (e : BudgetExpense) : Bool :=
  e.budget_id == budget.id &&
  (if intTruthy budget.transaction_type_category_id then
    e.transaction_type_category_id == budget.transaction_type_category_id
  else true)

/-- The subcategory filter of `check_budget_expense` (`budget/services.py`
lines 240-244) compares `Budget.transaction_type_subcategory_id` — a column
of the `budgets` table, not of `budget_expenses` — with the matched budget's
subcategory value.  In a query whose FROM list is `budget_expenses`,
SQLAlchemy adds `budgets` to the FROM clause as a cartesian product, so the
condition holds for a result row iff SOME budget row has that subcategory;
it does not constrain the returned `BudgetExpense` at all. -/
def crossJoinBudgetCond (budget : Budget) (db : Store) : Bool :=
  if optTruthy budget.transaction_type_subcategory_id then
    db.budgets.any (fun b2 =>
      b2.transaction_type_subcategory_id == budget.transaction_type_subcategory_id)
  else true

/-- `check_budget_expense` (`budget/services.py`): first ledger row passing
the filters, under the cartesian-product reading of the subcategory filter
described at `crossJoinBudgetCond`. -/
def check_budget_expense (budget : Budget) (db : Store) : Option BudgetExpense :=
  if crossJoinBudgetCond budget db then
    db.budget_expenses.find? (fun e => expenseFilter budget e)
  else none

/-- Payload dictionary built by `budget_tracker` for `create_budget_expense`. -/
structure BudgetExpenseCreateData where
  budget_id : Int
  transaction_type_category_id : Int
  transaction_type_subcategory_id : Option Int
  amount_spent : ℚ
deriving DecidableEq

/-- `create_budget_expense` (`budget/services.py`): insert a new ledger row
and return its autoincrement id. -/
def create_budget_expense (data : BudgetExpenseCreateData) (db : Store) :
    Int × Store :=
  let row : BudgetExpense :=
    { id := db.next_expense_id
      budget_id := data.budget_id
      transaction_type_category_id := data.transaction_type_category_id
      transaction_type_subcategory_id := data.transaction_type_subcategory_id
      amount_spent := data.amount_spent }
  (db.next_expense_id,
    { db with
      budget_expenses := db.budget_expenses ++ [row]
      next_expense_id := db.next_expense_id + 1 })

/-- `update_budget_expense` (`budget/services.py`): set `amount_spent` on
every ledger row whose `budget_id` matches. -/
def update_budget_expense (budget_id : Int) (amount_spent : ℚ) (db : Store) :
    Store :=
  { db with
    budget_expenses := db.budget_expenses.map (fun e =>
      if e.budget_id == budget_id then { e with amount_spent := amount_spent }
      else e) }

/-- `budget_tracker` (`budget/services.py` lines 248-292): match the
transaction to a budget; if matched, accumulate into the existing ledger row
or create a fresh one with `amount_spent = transaction.amount`. -/
def budget_tracker (t : Transaction) (db : Store) : Store :=
  match check_budget t db with
  | none => db
  | some budget =>
    match check_budget_expense budget db with
    | some budget_expense =>
      update_budget_expense budget.id (budget_expense.amount_spent + t.amount) db
    | none =>
      (create_budget_expense
        { budget_id := budget.id
          transaction_type_category_id := budget.transaction_type_category_id
          transaction_type_subcategory_id :=
            if optTruthy budget.transaction_type_subcategory_id then
              budget.transaction_type_subcategory_id
            else none
          amount_spent := t.amount } db).2

/-- Left fold of `budget_tracker` over a list of transaction events in
delivery order (what the consumer loop effects on the store). -/
def processAll (ts : List Transaction) (db : Store) : Store :=
  ts.foldl (fun s t => budget_tracker t s) db

/-- Python exceptions that `budget_status` can raise: `UnboundLocalError`
(when no budget matches, the final `return` dereferences local names that
were never assigned) and `ZeroDivisionError` (from `/` when
`budget.amount == 0`; the columns are `Float`, and Python raises on float
division by zero instead of producing infinity). -/
inductive PyError where
  | unboundLocal
  | zeroDivision
deriving DecidableEq

/-- Python division: raises `ZeroDivisionError` on a zero divisor. -/
def pyDiv (a b : ℚ) : Except PyError ℚ :=
  if b == 0 then Except.error PyError.zeroDivision else Except.ok (a / b)

/-- Rendering of a `.scalar()` lookup result inside an f-string
(`None` renders as the string "None"). -/
def scalarStr : Option String → String
  | some s => s
  | none => "None"

/-- `db.query(ExpenseCategory.category).filter(ExpenseCategory.id == i).scalar()`. -/
def lookupExpenseCategory (db : Store) (i : Int) : Option String :=
  (db.expense_categories.find? (fun c => c.1 == i)).map (fun c => c.2)

/-- `db.query(ExpenseSubCategory.sub_category).filter(ExpenseSubCategory.id == i).scalar()`. -/
def lookupExpenseSubCategory (db : Store) (i : Int) : Option String :=
  (db.expense_subcategories.find? (fun c => c.1 == i)).map (fun c => c.2)

/-- The dictionary returned by `budget_status` on success. -/
structure BudgetStatusReport where
  transaction_type_category : String
  transaction_type_subcategory : String
  amount : ℚ
  amount_spent : ℚ
  amount_remaining : ℚ
  percentage : ℚ
  alert : String
deriving DecidableEq

/-- `budget_status` (`budget/services.py` lines 295-353).  The branch
structure is translated verbatim; in particular the alert is chosen by the
source's `if percentage > 80 / elif percentage > 90 / elif percentage > 100`
chain, in that order. -/
def budget_status (budget_id : Int) (user_id : Int) (db : Store) :
    Except PyError BudgetStatusReport :=
  match db.budgets.find? (fun b => b.id == budget_id && b.user_id == user_id) with
  | none => Except.error PyError.unboundLocal
  | some budget =>
    let amount_spent_so_far : ℚ :=
      match check_budget_expense budget db with
      | some budget_expense => budget_expense.amount_spent
      | none => 0
    let amount_remaining := budget.amount - amount_spent_so_far
    match pyDiv amount_spent_so_far budget.amount with
    | Except.error e => Except.error e
    | Except.ok q =>
      let percentage := q * 100
      let transaction_type_category :=
        scalarStr (lookupExpenseCategory db budget.transaction_type_category_id)
      let transaction_type_subcategory :=
        if optTruthy budget.transaction_type_subcategory_id then
          scalarStr (lookupExpenseSubCategory db
            (budget.transaction_type_subcategory_id.getD 0))
        else ""
      let alert := s!"You have spent {percentage}% of your budget for {transaction_type_category} {transaction_type_subcategory} this month!"
      let alert :=
        if percentage > 80 then
          s!"You have spent {percentage}% of your budget for {transaction_type_category} this month!"
        else if percentage > 90 then
          s!"You have spent {percentage}% of your budget for {transaction_type_category} this month!"
        else if percentage > 100 then
          s!"You have exceeded your budget limit for {transaction_type_category} this month!"
        else alert
      Except.ok
        { transaction_type_category := transaction_type_category
          transaction_type_subcategory := transaction_type_subcategory
          amount := budget.amount
          amount_spent := amount_spent_so_far
          amount_remaining := amount_remaining
          percentage := percentage
          alert := alert }

/-- Outcome status field of the HTTP route responses in `budget/views.py`. -/
inductive RespStatus where
  | success
  | error
deriving DecidableEq

/-- The `/status/{budget_id}` route (`budget/views.py`, `status_of_budget`):
wraps `budget_status` in `try/except Exception`, returning HTTP 200 on
success and a generic HTTP 500 error body on any exception. -/
def status_of_budget (budget_id : Int) (user_id : Int) (db : Store) :
    RespStatus × Nat :=
  match budget_status budget_id user_id db with
  | Except.ok _ => (RespStatus.success, 200)
  | Except.error _ => (RespStatus.error, 500)

/-- A delivered Kafka message as seen by `process_message`
(`kafka/consumer.py`): `payload = none` models a payload on which
`Transaction(**message)` raises; `persistOk = false` models a
persistence-layer error raised while `budget_tracker` runs for this
message. -/
structure RawMsg where
  payload : Option Transaction
  persistOk : Bool
deriving DecidableEq

/-- Exceptions escaping the per-message processing step. -/
inductive ConsumeError where
  | malformedPayload
  | persistenceError
deriving DecidableEq

/-- `KafkaConsumerWrapper.process_message`: build a `Transaction` from the
payload and run `budget_tracker` on it.  There is no exception handling in
the source, so a malformed payload or a persistence error is returned as an
error, not swallowed. -/
def process_message (m : RawMsg) (db : Store) : Except ConsumeError Store :=
  match m.payload with
  | none => Except.error ConsumeError.malformedPayload
  | some t =>
    if m.persistOk then Except.ok (budget_tracker t db)
    else Except.error ConsumeError.persistenceError

/-- `KafkaConsumerWrapper.consume_messages` (`kafka/consumer.py` lines
73-86): `for message in self.consumer: self.process_message(...);
self.consumer.commit()`.  The body has no `try/except`, so the first
exception raised by `process_message` propagates out of the `for` loop and
ends consumption; later messages are not processed. -/
def consume_messages : List RawMsg → Store → Except ConsumeError Store
  | [], db => Except.ok db
  | m :: rest, db =>
    match process_message m db with
    | Except.ok db2 => consume_messages rest db2
    | Except.error e => Except.error e

/-- The `TransactionCreate` request body (`schemas.py`) as used by
`create_transaction`. -/
structure TransactionCreate where
  transaction_type_id : Int
  transaction_type_category_id : Int
  transaction_type_subcategory_id : Option Int
  amount : ℚ
  description : String
  transaction_date : Int
deriving DecidableEq

/-- Exception raised by the Kafka producer when the broker is unreachable. -/
inductive PublishError where
  | brokerUnreachable
deriving DecidableEq

/-- The transaction row committed by `create_transaction` for a given
request body, owner and store. -/
def newTransactionRow (data : TransactionCreate) (user_id : Int) (db : Store) :
    Transaction :=
  { id := db.next_transaction_id
    user_id := user_id
    transaction_type_id := data.transaction_type_id
    transaction_type_category_id := data.transaction_type_category_id
    transaction_type_subcategory_id := data.transaction_type_subcategory_id
    amount := data.amount
    description := data.description
    transaction_date := data.transaction_date }

/-- `create_transaction` (`transaction/services.py` lines 50-85): insert and
commit the row, then construct a Kafka producer and publish the encoded row.
`brokerUp` models whether the broker is reachable.  The publish is not
wrapped in `try/except`: when it raises, the exception propagates to the
caller after the commit, so the function returns the post-commit store
together with either the new id or the propagated error. -/
def create_transaction (data : TransactionCreate) (user_id : Int) (db : Store)
    (brokerUp : Bool) : Store × Except PublishError Int :=
  let t := newTransactionRow data user_id db
  let db2 :=
    { db with
      transactions := db.transactions ++ [t]
      next_transaction_id := db.next_transaction_id + 1 }
  if brokerUp then (db2, Except.ok t.id)
  else (db2, Except.error PublishError.brokerUnreachable)

/-! ### Example rows and stores used by witnesses and counterexamples -/

/-- An expense budget: user 1, category 2, ceiling 100, days 100-130. -/
def exBudget : Budget :=
  { id := 1
    user_id := 1
    transaction_type_category_id := 2
    transaction_type_subcategory_id := none
    amount := 100
    start_date := 100
    end_date := 130 }

/-- A ledger row for `exBudget` that already overspends it (150 of 100). -/
def overExpense : BudgetExpense :=
  { id := 1
    budget_id := 1
    transaction_type_category_id := 2
    transaction_type_subcategory_id := none
    amount_spent := 150 }

/-- A store holding `exBudget` and no ledger rows. -/
def exDb : Store :=
  { budgets := [exBudget]
    budget_expenses := []
    transactions := []
    expense_categories := [(2, "Food")]
    expense_subcategories := []
    next_expense_id := 1
    next_transaction_id := 1 }

/-- A store holding `exBudget` with the overspent ledger row. -/
def overDb : Store := { exDb with budget_expenses := [overExpense] }

/-- A store with no rows at all. -/
def emptyDb : Store :=
  { budgets := []
    budget_expenses := []
    transactions := []
    expense_categories := []
    expense_subcategories := []
    next_expense_id := 1
    next_transaction_id := 1 }

/-- An expense transaction of 500 matching `exBudget`. -/
def exT1 : Transaction :=
  { id := 11
    user_id := 1
    transaction_type_id := 2
    transaction_type_category_id := 2
    transaction_type_subcategory_id := none
    amount := 500
    description := "groceries"
    transaction_date := 105 }

/-- An expense transaction of 350 matching `exBudget`. -/
def exT2 : Transaction :=
  { id := 12
    user_id := 1
    transaction_type_id := 2
    transaction_type_category_id := 2
    transaction_type_subcategory_id := none
    amount := 350
    description := "utilities"
    transaction_date := 110 }

/-! ### Helper lemmas -/

/-- `find?` skips a prefix on which the predicate is everywhere false. -/
theorem find?_append_right {α : Type} (p : α → Bool) {l1 : List α}
    (l2 : List α) (h : ∀ x ∈ l1, p x = false) :
    (l1 ++ l2).find? p = l2.find? p := by
  induction l1 with
  | nil => rfl
  | cons a l ih =>
    have ha := h a (List.mem_cons_self a l)
    simp only [List.cons_append, List.find?_cons, ha]
    exact ih (fun x hx => h x (List.mem_cons_of_mem a hx))

/-- `budget_tracker` only writes to the `budget_expenses` table. -/
theorem budget_tracker_preserves_budgets (t : Transaction) (db : Store) :
    (budget_tracker t db).budgets = db.budgets := by
  unfold budget_tracker
  split
  · rfl
  · split
    · rfl
    · rfl

/-- A budget found by `check_budget` is a row of the store. -/
theorem mem_of_check_budget {t : Transaction} {db : Store} {b : Budget}
    (h : check_budget t db = some b) : b ∈ db.budgets :=
  List.mem_of_find?_eq_some h

/-- The cartesian-product subcategory condition holds whenever the budget is
itself a row of the store (it then witnesses its own subcategory). -/
theorem crossJoinBudgetCond_of_mem {b : Budget} {db : Store}
    (h : b ∈ db.budgets) : crossJoinBudgetCond b db = true := by
  unfold crossJoinBudgetCond
  cases hsub : optTruthy b.transaction_type_subcategory_id with
  | false => simp
  | true =>
    simp only [if_pos, List.any_eq_true]
    exact ⟨b, h, by simp⟩

/-- Effect of the `update_budget_expense` map on a ledger of the shape
`pre ++ [r]` where only `r` belongs to the updated budget. -/
theorem map_update_split (b : Budget) (amt : ℚ) (pre : List BudgetExpense)
    (r : BudgetExpense)
    (hpre : ∀ e ∈ pre, (e.budget_id == b.id) = false)
    (hrb : (r.budget_id == b.id) = true) :
    (pre ++ [r]).map (fun e =>
        if e.budget_id == b.id then { e with amount_spent := amt } else e) =
      pre ++ [{ r with amount_spent := amt }] := by
  have hrb2 : r.budget_id = b.id := by simpa using hrb
  have hkeep : pre.map (fun e =>
      if e.budget_id == b.id then { e with amount_spent := amt } else e) =
      pre.map id :=
    List.map_congr_left (fun e he => by
      have hne : e.budget_id ≠ b.id := by simpa using hpre e he
      simp [hne])
  rw [List.map_append, hkeep, List.map_id]
  congr 1
  simp [hrb2]

/-- One reconciliation step on a store whose ledger is `pre ++ [r]`, where
`pre` holds no row of the matched budget and `r` passes the lookup filters:
the step rewrites `r`'s `amount_spent` to `r.amount_spent + t.amount` and
changes nothing else. -/
theorem tracker_step (t : Transaction) (db : Store) (b : Budget)
    (pre : List BudgetExpense) (r : BudgetExpense)
    (hcb : check_budget t db = some b)
    (hexp : db.budget_expenses = pre ++ [r])
    (hpre : ∀ e ∈ pre, (e.budget_id == b.id) = false)
    (hrf : expenseFilter b r = true) :
    budget_tracker t db =
      { db with
        budget_expenses :=
          pre ++ [{ r with amount_spent := r.amount_spent + t.amount }] } := by
  have hcross : crossJoinBudgetCond b db = true :=
    crossJoinBudgetCond_of_mem (mem_of_check_budget hcb)
  have hfind : check_budget_expense b db = some r := by
    unfold check_budget_expense
    rw [hcross]
    simp only [if_pos]
    rw [hexp, find?_append_right _ _ (fun e he => by
      simp [expenseFilter, hpre e he])]
    simp [List.find?_cons, hrf]
  have hrb : (r.budget_id == b.id) = true := by
    cases h : (r.budget_id == b.id) with
    | true => rfl
    | false => rw [expenseFilter, h] at hrf; simp at hrf
  simp only [budget_tracker, hcb, hfind, update_budget_expense]
  congr 1
  rw [hexp]
  exact map_update_split b (r.amount_spent + t.amount) pre r hpre hrb

/-- Folding `budget_tracker` over transactions that all match budget `b`,
starting from a ledger `pre ++ [r]` whose only row for `b` is `r`,
accumulates the transaction amounts into `r`. -/
theorem processAll_loop (ts : List Transaction) :
    ∀ (db : Store) (r : BudgetExpense) (pre : List BudgetExpense) (b : Budget),
    (∀ t ∈ ts, check_budget t db = some b) →
    db.budget_expenses = pre ++ [r] →
    (∀ e ∈ pre, (e.budget_id == b.id) = false) →
    expenseFilter b r = true →
    processAll ts db =
      { db with
        budget_expenses := pre ++
          [{ r with amount_spent :=
              r.amount_spent + (ts.map (fun t => t.amount)).sum }] } := by
  induction ts with
  | nil =>
    intro db r pre b hcb hexp hpre hrf
    obtain ⟨rid, rbid, rcat, rsub, ramt⟩ := r
    simp only [processAll, List.foldl_nil, List.map_nil, List.sum_nil, add_zero]
    rw [← hexp]
  | cons t ts ih =>
    intro db r pre b hcb hexp hpre hrf
    have hstep := tracker_step t db b pre r (hcb t (List.mem_cons_self t ts))
      hexp hpre hrf
    have hrest := ih { db with
        budget_expenses :=
          pre ++ [{ r with amount_spent := r.amount_spent + t.amount }] }
      { r with amount_spent := r.amount_spent + t.amount } pre b
      (fun t2 ht2 => hcb t2 (List.mem_cons_of_mem t ht2))
      rfl hpre hrf
    simp only [processAll, List.foldl_cons] at hrest ⊢
    rw [hstep, hrest]
    simp [add_assoc]

/-! ### C1: ledger accumulation over a sequence of matching transactions -/

/-- C1: for a nonempty sequence of transaction events that all match budget
`b`, processed in delivery order through `budget_tracker` on a store whose
ledger holds no row for `b`, the first event creates the ledger row (with
`amount_spent` = its amount) and each later event adds its amount, so the
final ledger is the old one plus a single row for `b` whose `amount_spent`
is the sum of all the transaction amounts. -/
theorem budget_tracker_ledger_accumulates (t0 : Transaction)
    (ts : List Transaction) (db : Store) (b : Budget)
    (hcb : ∀ t ∈ t0 :: ts, check_budget t db = some b)
    (hpre : ∀ e ∈ db.budget_expenses, (e.budget_id == b.id) = false) :
    processAll (t0 :: ts) db =
      { db with
        budget_expenses := db.budget_expenses ++
          [{ id := db.next_expense_id
             budget_id := b.id
             transaction_type_category_id := b.transaction_type_category_id
             transaction_type_subcategory_id :=
               if optTruthy b.transaction_type_subcategory_id then
                 b.transaction_type_subcategory_id
               else none
             amount_spent := ((t0 :: ts).map (fun t => t.amount)).sum }]
        next_expense_id := db.next_expense_id + 1 } := by
  have hcb0 : check_budget t0 db = some b := hcb t0 (List.mem_cons_self t0 ts)
  have hcross : crossJoinBudgetCond b db = true :=
    crossJoinBudgetCond_of_mem (mem_of_check_budget hcb0)
  have hnone : check_budget_expense b db = none := by
    unfold check_budget_expense
    rw [hcross]
    simp only [if_pos]
    apply List.find?_eq_none.mpr
    intro e he
    simp [expenseFilter, hpre e he]
  have hfirst : budget_tracker t0 db =
      { db with
        budget_expenses := db.budget_expenses ++
          [{ id := db.next_expense_id
             budget_id := b.id
             transaction_type_category_id := b.transaction_type_category_id
             transaction_type_subcategory_id :=
               if optTruthy b.transaction_type_subcategory_id then
                 b.transaction_type_subcategory_id
               else none
             amount_spent := t0.amount }]
        next_expense_id := db.next_expense_id + 1 } := by
    simp only [budget_tracker, hcb0, hnone, create_budget_expense]
  have hrest := processAll_loop ts
    { db with
      budget_expenses := db.budget_expenses ++
        [{ id := db.next_expense_id
           budget_id := b.id
           transaction_type_category_id := b.transaction_type_category_id
           transaction_type_subcategory_id :=
             if optTruthy b.transaction_type_subcategory_id then
               b.transaction_type_subcategory_id
             else none
           amount_spent := t0.amount }]
      next_expense_id := db.next_expense_id + 1 }
    { id := db.next_expense_id
      budget_id := b.id
      transaction_type_category_id := b.transaction_type_category_id
      transaction_type_subcategory_id :=
        if optTruthy b.transaction_type_subcategory_id then
          b.transaction_type_subcategory_id
        else none
      amount_spent := t0.amount }
    db.budget_expenses b
    (fun t2 ht2 => hcb t2 (List.mem_cons_of_mem t0 ht2))
    rfl hpre (by simp [expenseFilter])
  simp only [processAll, List.foldl_cons] at hrest ⊢
  rw [hfirst, hrest]
  simp [add_comm]

/-- Witness for C1: the two matching transactions of 500 and 350 produce a
single ledger row for `exBudget` with `amount_spent = 850`. -/
theorem budget_tracker_ledger_accumulates_witness :
    processAll [exT1, exT2] exDb =
      { exDb with
        budget_expenses := exDb.budget_expenses ++
          [{ id := exDb.next_expense_id
             budget_id := exBudget.id
             transaction_type_category_id :=
               exBudget.transaction_type_category_id
             transaction_type_subcategory_id :=
               if optTruthy exBudget.transaction_type_subcategory_id then
                 exBudget.transaction_type_subcategory_id
               else none
             amount_spent := (([exT1, exT2]).map (fun t => t.amount)).sum }]
        next_expense_id := exDb.next_expense_id + 1 } :=
  budget_tracker_ledger_accumulates exT1 [exT2] exDb exBudget
    (by decide) (by decide)

/-! ### C2: alert threshold selection in `budget_status` -/

/-- C2 (refuting the claimed highest-threshold-wins selection): on a budget
of 100 with 150 already spent, the percentage is 150 — strictly above 100 —
yet `budget_status` returns the "spent X%" message, not the "exceeded your
budget limit" message: the source tests `percentage > 80` first, so the
`> 90` and `> 100` branches are unreachable. -/
theorem budget_status_over_100_spent_message :
    budget_status 1 1 overDb =
      Except.ok
        { transaction_type_category := "Food"
          transaction_type_subcategory := ""
          amount := 100
          amount_spent := 150
          amount_remaining := -50
          percentage := 150
          alert := "You have spent 150% of your budget for Food this month!" } ∧
    (budget_status 1 1 overDb).toOption.map (fun r => r.alert) ≠
      some "You have exceeded your budget limit for Food this month!" := by
  have hf : overDb.budgets.find?
      (fun x => x.id == (1 : Int) && x.user_id == (1 : Int)) = some exBudget := by
    decide
  have hbe : check_budget_expense exBudget overDb = some overExpense := by
    decide
  have h1 : budget_status 1 1 overDb =
      Except.ok
        { transaction_type_category := "Food"
          transaction_type_subcategory := ""
          amount := 100
          amount_spent := 150
          amount_remaining := -50
          percentage := 150
          alert := "You have spent 150% of your budget for Food this month!" } := by
    simp only [budget_status, hf, hbe, pyDiv]
    norm_num [exBudget, overExpense]
    refine ⟨rfl, ?_, rfl⟩
    intro h
    simp [optTruthy] at h
  refine ⟨h1, ?_⟩
  rw [h1]
  decide

/-! ### C3: zero-amount budget makes the percentage division raise -/

/-- C3: on any budget row with `amount = 0`, `budget_status` fails with the
division-by-zero computation error (Python's `/` raises on a zero divisor)
rather than returning a report. -/
theorem budget_status_zero_amount_division_error (budget_id user_id : Int)
    (db : Store) (b : Budget)
    (hfind : db.budgets.find?
      (fun x => x.id == budget_id && x.user_id == user_id) = some b)
    (hz : b.amount = 0) :
    budget_status budget_id user_id db = Except.error PyError.zeroDivision := by
  simp [budget_status, hfind, pyDiv, hz]

/-- A budget with amount 0 and a store holding it, for the C3 witness. -/
def zeroBudget : Budget :=
  { id := 3
    user_id := 1
    transaction_type_category_id := 2
    transaction_type_subcategory_id := none
    amount := 0
    start_date := 0
    end_date := 10 }

/-- Store holding only `zeroBudget`. -/
def zeroDb : Store := { emptyDb with budgets := [zeroBudget] }

/-- Witness for C3 at the concrete zero-amount budget. -/
theorem budget_status_zero_amount_division_error_witness :
    budget_status 3 1 zeroDb = Except.error PyError.zeroDivision :=
  budget_status_zero_amount_division_error 3 1 zeroDb zeroBudget
    (by decide) (by decide)

/-! ### C4: missing budget does not yield a NotFound outcome -/

/-- C4 counterexample: on a store with no budget row for (id 1, user 1),
`budget_status` raises the unbound-local error (the final `return`
dereferences names never assigned), and the route maps it to a generic
HTTP 500 internal error — not a client-visible 404 NotFound. -/
theorem budget_status_missing_not_found_counterexample :
    budget_status 1 1 emptyDb = Except.error PyError.unboundLocal ∧
    status_of_budget 1 1 emptyDb = (RespStatus.error, 500) ∧
    (status_of_budget 1 1 emptyDb).2 ≠ 404 := by
  refine ⟨rfl, rfl, by decide⟩

/-- C4 amended: whenever no budget row matches (budget_id, user_id),
`budget_status` fails with the internal unbound-local error and the
`/status/{budget_id}` route returns a generic 500 internal error response. -/
theorem budget_status_missing_budget_internal_error (budget_id user_id : Int)
    (db : Store)
    (h : db.budgets.find?
      (fun x => x.id == budget_id && x.user_id == user_id) = none) :
    budget_status budget_id user_id db = Except.error PyError.unboundLocal ∧
    status_of_budget budget_id user_id db = (RespStatus.error, 500) := by
  have h1 : budget_status budget_id user_id db =
      Except.error PyError.unboundLocal := by
    simp [budget_status, h]
  exact ⟨h1, by simp [status_of_budget, h1]⟩

/-- Store with one budget belonging to a different user, for the C4
witness. -/
def otherUserDb : Store :=
  { emptyDb with budgets := [{ exBudget with user_id := 2 }] }

/-- Witness for C4 (amended) on a store whose only budget belongs to
another user. -/
theorem budget_status_missing_budget_internal_error_witness :
    budget_status 1 1 otherUserDb = Except.error PyError.unboundLocal ∧
    status_of_budget 1 1 otherUserDb = (RespStatus.error, 500) :=
  budget_status_missing_budget_internal_error 1 1 otherUserDb (by decide)

/-! ### C5: a failing message terminates the consumption loop -/

/-- A message whose payload fails to build a `Transaction`. -/
def badMsg : RawMsg := { payload := none, persistOk := true }

/-- A well-formed message carrying `exT1`. -/
def goodMsg : RawMsg := { payload := some exT1, persistOk := true }

/-- A well-formed message whose reconciliation hits a persistence error. -/
def persistFailMsg : RawMsg := { payload := some exT1, persistOk := false }

/-- C5 counterexample: delivering a malformed message followed by a valid
one makes `consume_messages` end with the malformed-payload error — the
loop does not log-and-continue; the valid message is never processed. -/
theorem consume_messages_malformed_terminates_counterexample :
    consume_messages [badMsg, goodMsg] exDb =
      Except.error ConsumeError.malformedPayload := rfl

/-- C5 amended: any exception raised by the per-message processing step
(malformed payload or persistence error) propagates out of
`consume_messages`, terminating the loop with that error; the remaining
messages are not processed. -/
theorem consume_messages_error_propagates (m : RawMsg) (rest : List RawMsg)
    (db : Store) (e : ConsumeError)
    (h : process_message m db = Except.error e) :
    consume_messages (m :: rest) db = Except.error e := by
  simp [consume_messages, h]

/-- Witness for C5 (amended) on a persistence-layer failure. -/
theorem consume_messages_error_propagates_witness :
    consume_messages [persistFailMsg] exDb =
      Except.error ConsumeError.persistenceError :=
  consume_messages_error_propagates persistFailMsg [] exDb
    ConsumeError.persistenceError rfl

/-! ### C6: a transaction matching no budget is a no-op -/

/-- C6: when no budget row matches the transaction's owner, category and
date, `budget_tracker` returns the store unchanged: every ledger row is
untouched and none is created. -/
theorem budget_tracker_no_match_noop (t : Transaction) (db : Store)
    (h : ∀ b ∈ db.budgets, matchesBudget b t = false) :
    budget_tracker t db = db := by
  have hnone : check_budget t db = none := by
    apply List.find?_eq_none.mpr
    intro b hb
    simp [h b hb]
  simp [budget_tracker, hnone]

/-- A transaction of a category no budget covers. -/
def unbudgetedT : Transaction := { exT1 with transaction_type_category_id := 99 }

/-- Witness for C6: the unbudgeted transaction leaves `exDb` unchanged. -/
theorem budget_tracker_no_match_noop_witness :
    budget_tracker unbudgetedT exDb = exDb :=
  budget_tracker_no_match_noop unbudgetedT exDb (by decide)

/-! ### C7: inclusive date bounds in the budget match -/

/-- C7: for a budget and transaction with equal owner and equal category id,
the `check_budget` row filter holds exactly when
`start_date ≤ transaction_date ≤ end_date`, both bounds inclusive. -/
theorem check_budget_inclusive_bounds (b : Budget) (t : Transaction)
    (hu : b.user_id = t.user_id)
    (hc : b.transaction_type_category_id = t.transaction_type_category_id) :
    matchesBudget b t = true ↔
      (b.start_date ≤ t.transaction_date ∧
        t.transaction_date ≤ b.end_date) := by
  simp [matchesBudget, hu, hc, ge_iff_le]

/-- Transaction dated exactly on `exBudget.start_date`. -/
def onStartT : Transaction := { exT1 with transaction_date := 100 }

/-- Transaction dated exactly on `exBudget.end_date`. -/
def onEndT : Transaction := { exT1 with transaction_date := 130 }

/-- Transaction dated one day before `exBudget.start_date`. -/
def beforeStartT : Transaction := { exT1 with transaction_date := 99 }

/-- Transaction dated one day after `exBudget.end_date`. -/
def afterEndT : Transaction := { exT1 with transaction_date := 131 }

/-- Witness for C7: both boundary days match; one day outside either bound
does not. -/
theorem check_budget_inclusive_bounds_witness :
    matchesBudget exBudget onStartT = true ∧
    matchesBudget exBudget onEndT = true ∧
    matchesBudget exBudget beforeStartT = false ∧
    matchesBudget exBudget afterEndT = false := by
  refine ⟨?_, ?_, ?_, ?_⟩
  · exact (check_budget_inclusive_bounds exBudget onStartT rfl rfl).mpr
      (by decide)
  · exact (check_budget_inclusive_bounds exBudget onEndT rfl rfl).mpr
      (by decide)
  · cases hb : matchesBudget exBudget beforeStartT with
    | false => rfl
    | true =>
      exact absurd
        ((check_budget_inclusive_bounds exBudget beforeStartT rfl rfl).mp hb).1
        (by decide)
  · cases hb : matchesBudget exBudget afterEndT with
    | false => rfl
    | true =>
      exact absurd
        ((check_budget_inclusive_bounds exBudget afterEndT rfl rfl).mp hb).2
        (by decide)

/-! ### C8: publish failure after the committed write -/

/-- A transaction-create request body. -/
def exCreate : TransactionCreate :=
  { transaction_type_id := 2
    transaction_type_category_id := 2
    transaction_type_subcategory_id := none
    amount := 25
    description := "coffee"
    transaction_date := 105 }

/-- C8 counterexample: when the broker is unreachable, `create_transaction`
ends with the propagated publish error — the caller does not receive the
new transaction id. -/
theorem create_transaction_publish_fail_counterexample :
    (create_transaction exCreate 1 exDb false).2 =
      Except.error PublishError.brokerUnreachable := rfl

/-- C8 amended: when the publish fails, the committed transaction row stays
in the store (the write is not rolled back), but the failure propagates to
the caller instead of being swallowed, so the caller does not receive the
new id. -/
theorem create_transaction_publish_fail_write_survives
    (data : TransactionCreate) (user_id : Int) (db : Store) :
    (create_transaction data user_id db false).1.transactions =
      db.transactions ++ [newTransactionRow data user_id db] ∧
    (create_transaction data user_id db false).2 =
      Except.error PublishError.brokerUnreachable :=
  ⟨rfl, rfl⟩

/-! ### C9: the ledger subcategory filter does not constrain the ledger -/

/-- A budget that specifies subcategory 5. -/
def subcatBudget : Budget :=
  { id := 9
    user_id := 1
    transaction_type_category_id := 2
    transaction_type_subcategory_id := some 5
    amount := 100
    start_date := 0
    end_date := 10 }

/-- A ledger row for `subcatBudget` whose subcategory is 7, not 5. -/
def mismatchExpense : BudgetExpense :=
  { id := 1
    budget_id := 9
    transaction_type_category_id := 2
    transaction_type_subcategory_id := some 7
    amount_spent := 40 }

/-- Store holding `subcatBudget` and the mismatching ledger row. -/
def subcatDb : Store :=
  { emptyDb with
    budgets := [subcatBudget]
    budget_expenses := [mismatchExpense]
    next_expense_id := 2 }

/-- C9 (refuting the claimed subcategory filter on the ledger): the lookup
returns a `BudgetExpense` row whose subcategory id (7) differs from the
budget's (5), because the source filters on
`Budget.transaction_type_subcategory_id` — a `budgets` column — instead of
the `budget_expenses` column, which constrains nothing on the returned
row. -/
theorem check_budget_expense_subcategory_not_filtered :
    check_budget_expense subcatBudget subcatDb = some mismatchExpense ∧
    mismatchExpense.transaction_type_subcategory_id ≠
      subcatBudget.transaction_type_subcategory_id := by
  decide

/-! ### C10: reconciliation never consults the transaction type -/

/-- C10: the budget match uses only owner, category id and date — never the
transaction's type — so an income transaction (type `Income = 1`) whose
numeric category id equals an expense budget's category id for the same
owner, dated inside the budget's range, is reconciled like an expense: the
budget's ledger `amount_spent` grows by the income amount. -/
theorem budget_tracker_income_increases_expense_budget (t : Transaction)
    (db : Store) (b : Budget) (pre : List BudgetExpense) (r : BudgetExpense)
    (htype : t.transaction_type_id = 1)
    (hcb : check_budget t db = some b)
    (hexp : db.budget_expenses = pre ++ [r])
    (hpre : ∀ e ∈ pre, (e.budget_id == b.id) = false)
    (hrf : expenseFilter b r = true) :
    budget_tracker t db =
      { db with
        budget_expenses :=
          pre ++ [{ r with amount_spent := r.amount_spent + t.amount }] } :=
  tracker_step t db b pre r hcb hexp hpre hrf

/-- An income transaction (type 1) whose category id coincides numerically
with `exBudget`'s expense category id. -/
def incomeT : Transaction :=
  { id := 20
    user_id := 1
    transaction_type_id := 1
    transaction_type_category_id := 2
    transaction_type_subcategory_id := none
    amount := 300
    description := "salary"
    transaction_date := 105 }

/-- A ledger row for `exBudget` with 50 spent so far. -/
def halfExpense : BudgetExpense :=
  { id := 1
    budget_id := 1
    transaction_type_category_id := 2
    transaction_type_subcategory_id := none
    amount_spent := 50 }

/-- Store holding `exBudget` and `halfExpense`. -/
def incomeDb : Store :=
  { exDb with budget_expenses := [halfExpense], next_expense_id := 2 }

/-- Witness for C10: the income transaction of 300 pushes the expense
budget's ledger from 50 to 350. -/
theorem budget_tracker_income_increases_expense_budget_witness :
    budget_tracker incomeT incomeDb =
      { incomeDb with
        budget_expenses :=
          [] ++ [{ halfExpense with
            amount_spent := halfExpense.amount_spent + incomeT.amount }] } :=
  budget_tracker_income_increases_expense_budget incomeT incomeDb exBudget
    [] halfExpense rfl (by decide) rfl (by decide) (by decide)

end PFMS
